import Mathlib

/-!
Verification development for the billboard-trivia command-line scripts
(`chart_week_dump.py`, `charts_and_weeks.py`, `export_chart_json.py`).

The Python scripts are shallowly embedded: pure fragments become Lean
functions, the file system and the chart provider become explicit
parameters, process exits and raised exceptions become explicit outcome
values.
-/

namespace BillboardTrivia

/-! ### Model of CPython `datetime.strptime(s, "%Y-%m-%d")`

CPython's `_strptime` compiles the format to the regex
`(?P<Y>\d\d\d\d)\-(?P<m>1[0-2]|0[1-9]|[1-9])\-(?P<d>3[01]|[12]\d|0[1-9]|[1-9])`,
requires the match to consume the whole string, and then builds a
`datetime.date`, which additionally validates `1 <= year` and
`day <= days_in_month(year, month)`.  Character classes are modelled by
their code points: `-` is 45, `0`..`9` are 48..57; `\d` is modelled as the
ASCII digits (the scripts' date strings are ASCII). -/

/-- ASCII digit test (`\d` in the strptime regex): code points 48..57. -/
def isDigit (c : Char) : Bool := 48 ≤ c.toNat && c.toNat ≤ 57

/-- Numeric value of an ASCII digit character. -/
def dval (c : Char) : Nat := c.toNat - 48

/-- A Python `datetime.date` value; Python compares dates lexicographically
by (year, month, day). -/
structure PyDate where
  year : Nat
  month : Nat
  day : Nat
deriving DecidableEq, Repr

/-- Python `<` on `datetime.date`: lexicographic on (year, month, day). -/
def PyDate.lt (a b : PyDate) : Bool :=
  a.year < b.year ||
    (a.year == b.year &&
      (a.month < b.month || (a.month == b.month && a.day < b.day)))

/-- Gregorian leap-year rule used by `datetime.date`. -/
def isLeap (y : Nat) : Bool :=
  y % 4 == 0 && (y % 100 != 0 || y % 400 == 0)

/-- Number of days in a month, as validated by the `datetime.date` constructor. -/
def daysInMonth (y m : Nat) : Nat :=
  if m = 2 then (if isLeap y then 29 else 28)
  else if m = 4 ∨ m = 6 ∨ m = 9 ∨ m = 11 then 30
  else 31

/-- Ordered regex alternation: return the result of the first alternative
whose continuation succeeds (the `re` module backtracks across `|`). -/
def firstParse (alts : List (Nat × List Char)) (k : Nat → List Char → Option PyDate) :
    Option PyDate :=
  match alts with
  | [] => none
  | (v, rest) :: more =>
    match k v rest with
    | some r => some r
    | none => firstParse more k

/-- Ordered alternatives of the strptime month group `1[0-2]|0[1-9]|[1-9]`,
each paired with the unconsumed remainder of the input. -/
def monthAlts (cs : List Char) : List (Nat × List Char) :=
  (match cs with
   | c1 :: c2 :: rest =>
     if c1.toNat = 49 ∧ 48 ≤ c2.toNat ∧ c2.toNat ≤ 50 then [(10 + dval c2, rest)] else []
   | _ => []) ++
  (match cs with
   | c1 :: c2 :: rest =>
     if c1.toNat = 48 ∧ 49 ≤ c2.toNat ∧ c2.toNat ≤ 57 then [(dval c2, rest)] else []
   | _ => []) ++
  (match cs with
   | c1 :: rest =>
     if 49 ≤ c1.toNat ∧ c1.toNat ≤ 57 then [(dval c1, rest)] else []
   | _ => [])

/-- Ordered alternatives of the strptime day group `3[01]|[12]\d|0[1-9]|[1-9]`. -/
def dayAlts (cs : List Char) : List (Nat × List Char) :=
  (match cs with
   | c1 :: c2 :: rest =>
     if c1.toNat = 51 ∧ 48 ≤ c2.toNat ∧ c2.toNat ≤ 49 then [(30 + dval c2, rest)] else []
   | _ => []) ++
  (match cs with
   | c1 :: c2 :: rest =>
     if 49 ≤ c1.toNat ∧ c1.toNat ≤ 50 ∧ 48 ≤ c2.toNat ∧ c2.toNat ≤ 57 then
       [(10 * dval c1 + dval c2, rest)]
     else []
   | _ => []) ++
  (match cs with
   | c1 :: c2 :: rest =>
     if c1.toNat = 48 ∧ 49 ≤ c2.toNat ∧ c2.toNat ≤ 57 then [(dval c2, rest)] else []
   | _ => []) ++
  (match cs with
   | c1 :: rest =>
     if 49 ≤ c1.toNat ∧ c1.toNat ≤ 57 then [(dval c1, rest)] else []
   | _ => [])

/-- `datetime.strptime(s, "%Y-%m-%d").date()`: `some` on success, `none` when
CPython would raise `ValueError` (regex mismatch, unconverted trailing data,
or `datetime.date` range validation). -/
def strptimeYMD (s : String) : Option PyDate :=
  match s.data with
  | c1 :: c2 :: c3 :: c4 :: sep1 :: rest =>
    if isDigit c1 && isDigit c2 && isDigit c3 && isDigit c4 && sep1.toNat == 45 then
      let y := dval c1 * 1000 + dval c2 * 100 + dval c3 * 10 + dval c4
      firstParse (monthAlts rest) (fun m rest2 =>
        match rest2 with
        | sep2 :: rest3 =>
          if sep2.toNat = 45 then
            firstParse (dayAlts rest3) (fun d rest4 =>
              if rest4.isEmpty then
                if 1 ≤ y ∧ d ≤ daysInMonth y m then some ⟨y, m, d⟩ else none
              else none)
          else none
        | [] => none)
    else none
  | _ => none

/-! ### Data model shared by the three scripts

`billboard.ChartData` exposes a resolved date, previous/next-date pointers
and a list of entries; an entry exposes rank, title, artist, lastPos,
peakPos, weeks, and optionally isNew and image (the scripts read the last
two through `getattr` with defaults).  Python `None` and attribute absence
are modelled with `Option`. -/

/-- One `billboard.ChartEntry` as seen by the scripts. -/
structure ChartEntry where
  rank : Int
  title : String
  artist : String
  lastPos : Option Int
  peakPos : Option Int
  weeks : Option Int
  isNew : Option Bool
  image : Option String
deriving DecidableEq, Repr

/-- One `billboard.ChartData` snapshot as seen by the history walker.
`date = none` models `chart.date is None`; a snapshot is truthy exactly
when its entry list is non-empty (`ChartData.__len__`). -/
structure ChartData where
  date : Option String
  previousDate : Option String
  entries : List ChartEntry
deriving DecidableEq, Repr

/-- Python whitespace for `str.strip()`/`str.isspace()`, by code point:
CPython's `_PyUnicode_IsWhitespace` table — tab..carriage return
(9..13), the separator controls 28..31, space, next line (0x85),
no-break space (0xA0), Ogham space mark (0x1680), the typographic
spaces 0x2000..0x200A, line/paragraph separator (0x2028/0x2029),
narrow no-break space (0x202F), medium mathematical space (0x205F) and
ideographic space (0x3000). -/
def isPySpace (c : Char) : Bool :=
  (9 ≤ c.toNat && c.toNat ≤ 13) || (28 ≤ c.toNat && c.toNat ≤ 31) || c.toNat = 32 ||
  c.toNat = 133 || c.toNat = 160 || c.toNat = 5760 ||
  (8192 ≤ c.toNat && c.toNat ≤ 8202) || c.toNat = 8232 || c.toNat = 8233 ||
  c.toNat = 8239 || c.toNat = 8287 || c.toNat = 12288

/-- Python `str.strip()` with no argument: drop leading and trailing
whitespace characters. -/
def pyStrip (s : String) : String :=
  String.mk (((s.data.dropWhile isPySpace).reverse.dropWhile isPySpace).reverse)

/-- Python truthiness of an optional string argument: `None` and `""` are
falsy. -/
def argTruthy (o : Option String) : Bool :=
  match o with
  | none => false
  | some s => !(s == "")

/-- Every character below code point 128.  Theorems about rejected date
strings are scoped to ASCII arguments: CPython's `\d` also matches
non-ASCII Unicode decimal digits (so e.g. a date written with Arabic-Indic
digits is accepted by the real scripts), which `strptimeYMD` does not
model. -/
def asciiOnly (s : String) : Bool := s.data.all (fun c => c.toNat < 128)

/-- Outcome of a script's argument-validation phase: proceed past it, call
`sys.exit` with a code, or die on an exception nothing catches. -/
inductive ArgOutcome where
  | proceed
  | exitCode (c : Nat)
  | uncaught
deriving DecidableEq, Repr

end BillboardTrivia

namespace ChartsAndWeeks

open BillboardTrivia

/-- `charts_and_weeks.parse_date` (lines 45-46): `strptime` then `.date()`;
`none` models the raised `ValueError`. -/
def parse_date (s : String) : Option PyDate := strptimeYMD s

/-- `charts_and_weeks.within_bounds` (lines 49-57).  The `Except` error case
models the `ValueError` that `parse_date` raises on an unparsable date
string and that propagates out of `within_bounds`. -/
def within_bounds (dstr : String) (start stop : Option PyDate) : Except Unit Bool :=
  if dstr = "" then Except.ok false
  else
    match parse_date dstr with
    | none => Except.error ()
    | some d =>
      if start.elim false (fun s => PyDate.lt d s) then Except.ok false
      else if stop.elim false (fun e => PyDate.lt e d) then Except.ok false
      else Except.ok true

/-- Python truthiness of the `previousDate` pointer: `None` and `""` are falsy. -/
def prevTruthy (p : Option String) : Option String :=
  match p with
  | none => none
  | some s => if s = "" then none else some s

/-- Truthiness of `limit and count >= limit` (line 79): `None` and `0` are
falsy, so they never stop the walk. -/
def limitHit (limit : Option Int) (count : Nat) : Bool :=
  match limit with
  | none => false
  | some l => !(l == 0) && l ≤ (count : Int)

/-- Outcome of running the `iter_weeks` generator to completion: the dates it
yielded, the final `count`, and whether it raised (a `ValueError` escaping
`within_bounds`).  Dates yielded before a raise are kept — the consumer has
already received them. -/
structure WalkResult where
  emitted : List String
  count : Nat
  raised : Bool
deriving DecidableEq, Repr

/-- One iteration's yield section (lines 71-76): with a bound given, emit the
date only when `within_bounds` says so (error = the propagating
`ValueError`); with no bound, emit unconditionally. -/
def step_emit (dstr : String) (start stop : Option PyDate) : Except Unit (List String) :=
  if start.isSome || stop.isSome then
    match within_bounds dstr start stop with
    | Except.error _ => Except.error ()
    | Except.ok b => Except.ok (if b then [dstr] else [])
  else Except.ok [dstr]

/-- `charts_and_weeks.iter_weeks` (lines 60-86), with the provider reified as
the list of successive fetch results: element 0 is `ChartData(chart_name)`
and element `i+1` is the fetch at element `i`'s `previousDate`.  An
exhausted list models a provider with no further snapshots.  The `count`
argument is the loop counter (0 at the first call). -/
def iter_weeks (start stop : Option PyDate) (limit : Option Int) :
    List ChartData → Nat → WalkResult
  | [], count => ⟨[], count, false⟩
  | chart :: rest, count =>
    match chart.date with
    | none => ⟨[], count, false⟩
    | some dstr =>
      if chart.entries = [] ∨ dstr = "" then ⟨[], count, false⟩
      else
        match step_emit dstr start stop with
        | Except.error _ => ⟨[], count, true⟩
        | Except.ok emit =>
          if limitHit limit (count + 1) then ⟨emit, count + 1, false⟩
          else
            match prevTruthy chart.previousDate with
            | none => ⟨emit, count + 1, false⟩
            | some _ =>
              let r := iter_weeks start stop limit rest (count + 1)
              ⟨emit ++ r.emitted, r.count, r.raised⟩

/-- The candidate years `range(max_year, min_year - 1, -1)` (line 98),
descending from `maxY` to `minY`; empty when `maxY < minY`. -/
def descYears (minY maxY : Nat) : List Nat :=
  (List.range' minY (maxY + 1 - minY)).reverse

/-- `if ch and len(ch) > 0` (line 102) guarded by the `try` (lines 99-106):
`fetch y = none` models `billboard.ChartData(chart_name, year=str(y))`
raising, which is swallowed. -/
def yearAvailable (fetch : Nat → Option ChartData) (y : Nat) : Bool :=
  match fetch y with
  | some ch => decide (0 < ch.entries.length)
  | none => false

/-- `charts_and_weeks.list_year_end_years` (lines 89-108): probe the
descending candidate range, keep the years whose fetch succeeds with at
least one entry, and return them sorted ascending. -/
def list_year_end_years (fetch : Nat → Option ChartData) (minY maxY : Nat) : List Nat :=
  ((descYears minY maxY).filter (yearAvailable fetch)).mergeSort (· ≤ ·)

/-- A snapshot on which the while-loop condition of `iter_weeks` holds: the
chart is truthy (non-empty entries) and its date is a truthy string. -/
def goodChart (c : ChartData) : Prop :=
  c.entries ≠ [] ∧ ∃ d, c.date = some d ∧ d ≠ ""

/-- A well-formed finite backward chain: every snapshot is good, every
snapshot except the last has a truthy previous-date pointer, and the last
snapshot's pointer is falsy (null or empty). -/
def wf_chain : List ChartData → Prop
  | [] => True
  | [c] => goodChart c ∧ prevTruthy c.previousDate = none
  | c :: c2 :: rest => goodChart c ∧ prevTruthy c.previousDate ≠ none ∧ wf_chain (c2 :: rest)

/-- Every date string carried by the chain parses as a date, so
`within_bounds` never raises on it. -/
def datesParseable (chain : List ChartData) : Prop :=
  ∀ c ∈ chain, ∀ d, c.date = some d → parse_date d ≠ none

/-- `start = parse_date(args.start) if args.start else None` (line 129), and
the same for `--end` (line 130): an absent or empty argument is falsy and
becomes `None` without being parsed; a truthy argument is parsed, and the
`ValueError` raised on a malformed date is caught nowhere — these lines run
before the `try` block at line 132, so the process dies with a traceback
(interpreter exit status 1), never reaching `sys.exit(2)`. -/
def walker_parse_arg (arg : Option String) : Except Unit (Option PyDate) :=
  if argTruthy arg then
    match arg with
    | some s =>
      match parse_date s with
      | some d => Except.ok (some d)
      | none => Except.error ()
    | none => Except.ok none
  else Except.ok none

/-- The walker's argument phase for `--start`/`--end` (lines 129-130). -/
def walker_args (startArg stopArg : Option String) : ArgOutcome :=
  match walker_parse_arg startArg with
  | Except.error _ => ArgOutcome.uncaught
  | Except.ok _ =>
    match walker_parse_arg stopArg with
    | Except.error _ => ArgOutcome.uncaught
    | Except.ok _ => ArgOutcome.proceed

end ChartsAndWeeks

namespace ChartWeekDump

open BillboardTrivia

/-- `chart_week_dump.validate_date` (lines 32-38): return the string unchanged
when `strptime` accepts it, otherwise print to stderr and `sys.exit(2)`
(modelled as `Except.error 2`). -/
def validate_date (s : String) : Except Nat String :=
  match strptimeYMD s with
  | some _ => Except.ok s
  | none => Except.error 2

/-- The fixed CSV column list `FIELDS` (lines 14-19). -/
def FIELDS : List String :=
  ["rank", "title", "artist", "lastPos", "peakPos", "weeks", "isNew", "image"]

/-- One row dict produced by `chart_to_rows` (lines 41-54). -/
structure Row where
  rank : Int
  title : String
  artist : String
  lastPos : Option Int
  peakPos : Option Int
  weeks : Option Int
  isNew : Bool
  image : Option String
deriving DecidableEq, Repr

/-- `chart_week_dump.chart_to_rows` (lines 41-54): one row per entry, with
`bool(getattr(e, "isNew", False))` and `getattr(e, "image", None)`. -/
def chart_to_rows (entries : List ChartEntry) : List Row :=
  entries.map fun e =>
    { rank := e.rank
      title := e.title
      artist := e.artist
      lastPos := e.lastPos
      peakPos := e.peakPos
      weeks := e.weeks
      isNew := e.isNew.getD false
      image := e.image }

/-- The string the csv writer puts in column `k` for row `r`: the row dict is
`{k: r.get(k, "") for k in FIELDS}` (line 123) and `csv.DictWriter` renders
`None` as the empty string, ints in decimal, and bools as `True`/`False`.
A key absent from the row dict falls back to `r.get`'s default `""`. -/
def csvCell (r : Row) (k : String) : String :=
  if k = "rank" then toString r.rank
  else if k = "title" then r.title
  else if k = "artist" then r.artist
  else if k = "lastPos" then (match r.lastPos with | none => "" | some v => toString v)
  else if k = "peakPos" then (match r.peakPos with | none => "" | some v => toString v)
  else if k = "weeks" then (match r.weeks with | none => "" | some v => toString v)
  else if k = "isNew" then (if r.isNew then "True" else "False")
  else if k = "image" then (match r.image with | none => "" | some u => u)
  else ""

/-- The CSV file written at lines 118-124, as a list of rows of cells:
`writeheader()` emits `FIELDS`, then one data row per row dict, each
projected onto exactly the `FIELDS` columns. -/
def csv_output (rows : List Row) : List (List String) :=
  FIELDS :: rows.map fun r => FIELDS.map (csvCell r)

/-- The dumper's argument-validation phase (line 89): `validate_date` on the
required `--date`; exit code 2 on a malformed date, otherwise the script
proceeds to the fetch. -/
def dumper_args (dateArg : String) : ArgOutcome :=
  match validate_date dateArg with
  | Except.ok _ => ArgOutcome.proceed
  | Except.error c => ArgOutcome.exitCode c

end ChartWeekDump

namespace ExportChartJson

open BillboardTrivia

/-- `export_chart_json.validate_date` (lines 40-46): identical to the dumper's
validator — return the string unchanged on success, exit code 2 on failure. -/
def validate_date (s : String) : Except Nat String :=
  match strptimeYMD s with
  | some _ => Except.ok s
  | none => Except.error 2

/-- The exporter's allow-list `ALLOWED_CHARTS` (lines 16-24). -/
def ALLOWED_CHARTS : List String :=
  ["hot-100", "alternative-airplay", "country-songs", "hot-mainstream-rock-tracks",
   "latin-airplay", "r-and-b-songs", "rap-song"]

/-- One record of the standardized export (lines 80-88). -/
structure ExportRecord where
  song : String
  artist : String
  this_week : Int
  last_week : Option Int
  peak_position : Option Int
  weeks_on_chart : Option Int
  new : Bool
deriving DecidableEq, Repr

/-- Entry construction in `export_chart` (lines 77-89), in particular
`last_week = None if (e.lastPos is None or e.lastPos == 0) else e.lastPos`
(line 79). -/
def export_entry (e : ChartEntry) : ExportRecord :=
  { song := e.title
    artist := e.artist
    this_week := e.rank
    last_week :=
      match e.lastPos with
      | none => none
      | some v => if v = 0 then none else some v
    peak_position := e.peakPos
    weeks_on_chart := e.weeks
    new := e.isNew.getD false }

/-- `chart_slug.replace("/", "-")` (line 95): the pattern is a single
character, so the replacement is a character map. -/
def safe_slug (slug : String) : String :=
  String.mk (slug.data.map fun c => if c = '/' then '-' else c)

/-- The default output path `public/charts/<slug>/<slug>-<date>.json` (line 96). -/
def base_path (slug date : String) : String :=
  "public/charts/" ++ safe_slug slug ++ "/" ++ safe_slug slug ++ "-" ++ date ++ ".json"

/-- The collision-suffixed path `...-<n>.json` (lines 100-102). -/
def suffix_path (slug date : String) (n : Nat) : String :=
  "public/charts/" ++ safe_slug slug ++ "/" ++ safe_slug slug ++ "-" ++ date ++ "-" ++
    toString n ++ ".json"

/-- The `while os.path.exists(...): n += 1` scan (lines 99-101).  The
unbounded Python loop is modelled with an explicit fuel; the theorems only
use it with enough fuel to reach a free suffix, where the fuel is
irrelevant. -/
def find_free (fsExists : String → Bool) (slug date : String) : Nat → Nat → Nat
  | n, 0 => n
  | n, fuel + 1 =>
    if fsExists (suffix_path slug date n) then find_free fsExists slug date (n + 1) fuel
    else n

/-- Default output path construction (lines 94-102): the deterministic base
path, or, when it already exists, the first free numeric suffix starting
from 1. -/
def default_out_path (fsExists : String → Bool) (fuel : Nat) (slug date : String) : String :=
  if fsExists (base_path slug date) then
    suffix_path slug date (find_free fsExists slug date 1 fuel)
  else base_path slug date

/-- Modelled from the spec: the argparse requirement that exactly one of
`--date` and `--since` be given (lines 32-34 declare the required mutually
exclusive group; argparse itself is outside src).  Per the spec, a missing
or doubled flag of the group is a usage error with exit code 2. -/
def argparse_group_ok (dateArg sinceArg : Option String) : Bool :=
  (dateArg.isSome && sinceArg.isNone) || (dateArg.isNone && sinceArg.isSome)

/-- The exporter's argument-validation phase (`main`, lines 118-137 up to the
first fetch): argparse group check, then the allow-list check on the
stripped slug (lines 120-123), then `if args.since:` (line 124) by Python
truthiness — so `--since ""` passes argparse yet falls into the `--date`
branch (line 137) with `args.date = None`, where `validate_date(None)`
calls `datetime.strptime(None, ...)` and raises a `TypeError` that the
`except ValueError` does not catch: an uncaught exception, not exit 2. -/
def exporter_args (chartArg : String) (dateArg sinceArg : Option String) : ArgOutcome :=
  if argparse_group_ok dateArg sinceArg = false then ArgOutcome.exitCode 2
  else if (ALLOWED_CHARTS.contains (pyStrip chartArg)) = false then ArgOutcome.exitCode 2
  else if argTruthy sinceArg then
    match sinceArg with
    | some s =>
      match validate_date s with
      | Except.ok _ => ArgOutcome.proceed
      | Except.error c => ArgOutcome.exitCode c
    | none => ArgOutcome.uncaught  -- unreachable: argTruthy none is false
  else
    match dateArg with
    | some d =>
      match validate_date d with
      | Except.ok _ => ArgOutcome.proceed
      | Except.error c => ArgOutcome.exitCode c
    | none => ArgOutcome.uncaught

end ExportChartJson

namespace BillboardTrivia

/-- Written from the spec's words, for comparison with the code's validator
("For all valid YYYY-MM-DD strings, date validation succeeds and returns the
same string unchanged; for all other strings, validation fails with exit
code 2"): a canonical `YYYY-MM-DD` string is four digits, a dash, a
zero-padded two-digit month `01`..`12`, a dash, and a zero-padded two-digit
day, the whole denoting a real `datetime.date` (year at least 1, day within
the month). -/
def specCanonicalYMD (s : String) : Bool :=
  match s.data with
  | [y1, y2, y3, y4, s1, m1, m2, s2, d1, d2] =>
    isDigit y1 && isDigit y2 && isDigit y3 && isDigit y4 &&
    s1.toNat == 45 && s2.toNat == 45 &&
    isDigit m1 && isDigit m2 && isDigit d1 && isDigit d2 &&
    (let y := dval y1 * 1000 + dval y2 * 100 + dval y3 * 10 + dval y4
     let m := dval m1 * 10 + dval m2
     let d := dval d1 * 10 + dval d2
     decide (1 ≤ y) && decide (1 ≤ m) && decide (m ≤ 12) && decide (1 ≤ d) &&
       decide (d ≤ daysInMonth y m))
  | _ => false

end BillboardTrivia

section Scratch

open BillboardTrivia

example : strptimeYMD "2025-10-11" = some ⟨2025, 10, 11⟩ := by rfl
example : strptimeYMD "2020-1-5" = some ⟨2020, 1, 5⟩ := by rfl
example : strptimeYMD "2020-13-01" = none := by rfl
example : strptimeYMD "2020-02-30" = none := by rfl
example : strptimeYMD "2020-02-29" = some ⟨2020, 2, 29⟩ := by rfl
example : strptimeYMD "1900-02-29" = none := by rfl
example : strptimeYMD "0000-01-01" = none := by rfl
example : strptimeYMD "2020-01-011" = none := by rfl
example : strptimeYMD "2020-1-31" = some ⟨2020, 1, 31⟩ := by rfl
example : ChartWeekDump.validate_date "2020-1-5" = Except.ok "2020-1-5" := by rfl

end Scratch

open BillboardTrivia

namespace ChartsAndWeeks

theorem limitHit_none (c : Nat) : limitHit none c = false := rfl

theorem limitHit_some_zero (c : Nat) : limitHit (some 0) c = false := by
  simp [limitHit]

end ChartsAndWeeks

/-- C10: the history walker treats a limit of exactly zero the same as no
limit at all — `if limit and count >= limit` is never taken for
`limit = 0`, so the walk continues until the previous-date chain is
exhausted, exactly as with no limit. -/
theorem c10_walker_limit_zero_means_unlimited (start stop : Option PyDate)
    (chain : List ChartData) (count : Nat) :
    ChartsAndWeeks.iter_weeks start stop (some 0) chain count =
      ChartsAndWeeks.iter_weeks start stop none chain count := by
  induction chain generalizing count with
  | nil => rfl
  | cons chart rest ih =>
    simp only [ChartsAndWeeks.iter_weeks, ChartsAndWeeks.limitHit_some_zero,
      ChartsAndWeeks.limitHit_none, ih]

/-- C4: the exported `last_week` field is `null` exactly when the source
`lastPos` is `None` or exactly `0`, and otherwise equals the source value
unchanged. -/
theorem c4_export_last_week_null_normalization (e : ChartEntry) :
    ((ExportChartJson.export_entry e).last_week = none ↔
      e.lastPos = none ∨ e.lastPos = some 0) ∧
    ∀ v : Int, e.lastPos = some v → v ≠ 0 →
      (ExportChartJson.export_entry e).last_week = some v := by
  constructor
  · cases h : e.lastPos with
    | none => simp [ExportChartJson.export_entry, h]
    | some v => by_cases hv : v = 0 <;> simp [ExportChartJson.export_entry, h, hv]
  · intro v hv hv0
    simp [ExportChartJson.export_entry, hv, hv0]

/-- Witness for C4: a concrete entry whose last-position is 7 exports
`last_week = 7`. -/
theorem c4_export_last_week_null_normalization_witness :
    (ExportChartJson.export_entry
        ⟨3, "X", "Y", some 7, some 1, some 10, some false, none⟩).last_week = some 7 :=
  (c4_export_last_week_null_normalization
      ⟨3, "X", "Y", some 7, some 1, some 10, some false, none⟩).2 7 rfl (by decide)

/-- C7: in year-end probe mode, a fetch that raises is swallowed and the year
treated as unavailable; a year is in the result exactly when it is in the
probed range and its fetch succeeds with at least one entry; and the result
is sorted ascending. -/
theorem c7_year_end_probe (fetch : Nat → Option ChartData) (minY maxY : Nat) :
    (∀ y, y ∈ ChartsAndWeeks.list_year_end_years fetch minY maxY ↔
      minY ≤ y ∧ y ≤ maxY ∧ ChartsAndWeeks.yearAvailable fetch y = true) ∧
    List.Sorted (· ≤ ·) (ChartsAndWeeks.list_year_end_years fetch minY maxY) ∧
    (∀ y, fetch y = none → y ∉ ChartsAndWeeks.list_year_end_years fetch minY maxY) ∧
    (∀ y ch, fetch y = some ch → ch.entries = [] →
      y ∉ ChartsAndWeeks.list_year_end_years fetch minY maxY) := by
  have hmem : ∀ y, y ∈ ChartsAndWeeks.list_year_end_years fetch minY maxY ↔
      minY ≤ y ∧ y ≤ maxY ∧ ChartsAndWeeks.yearAvailable fetch y = true := by
    intro y
    unfold ChartsAndWeeks.list_year_end_years ChartsAndWeeks.descYears
    rw [(List.mergeSort_perm _ _).mem_iff, List.mem_filter, List.mem_reverse,
      List.mem_range'_1]
    constructor
    · rintro ⟨⟨h1, h2⟩, h3⟩
      exact ⟨h1, by omega, h3⟩
    · rintro ⟨h1, h2, h3⟩
      exact ⟨⟨h1, by omega⟩, h3⟩
  refine ⟨hmem, ?_, ?_, ?_⟩
  · unfold ChartsAndWeeks.list_year_end_years
    exact List.sorted_mergeSort' _
  · intro y hf hy
    have h := ((hmem y).1 hy).2.2
    simp [ChartsAndWeeks.yearAvailable, hf] at h
  · intro y ch hf hempty hy
    have h := ((hmem y).1 hy).2.2
    simp [ChartsAndWeeks.yearAvailable, hf, hempty] at h

/-- Witness for C7: with a provider that raises for 2007, the year 2007 is
absent from the probed result. -/
theorem c7_year_end_probe_witness :
    2007 ∉ ChartsAndWeeks.list_year_end_years
      (fun y => if y = 2000 then some ⟨some "2000", none, [⟨1, "X", "Y", none, some 1, some 5, none, none⟩]⟩ else none)
      1958 2008 :=
  (c7_year_end_probe _ 1958 2008).2.2.1 2007 rfl

/-- C8: the dumper's CSV output has exactly the 8 declared columns in fixed
order as its header row, every data row has exactly 8 cells, and a missing
(`None`) optional field is rendered as the empty string. -/
theorem c8_csv_fixed_columns (rows : List ChartWeekDump.Row) :
    (ChartWeekDump.csv_output rows).head? =
      some ["rank", "title", "artist", "lastPos", "peakPos", "weeks", "isNew", "image"] ∧
    (ChartWeekDump.csv_output rows).length = rows.length + 1 ∧
    (∀ l ∈ ChartWeekDump.csv_output rows, l.length = 8) ∧
    ∀ r ∈ rows,
      (r.lastPos = none →
        (ChartWeekDump.FIELDS.map (ChartWeekDump.csvCell r)).getD 3 "?" = "") ∧
      (r.image = none →
        (ChartWeekDump.FIELDS.map (ChartWeekDump.csvCell r)).getD 7 "?" = "") := by
  refine ⟨rfl, by simp [ChartWeekDump.csv_output], ?_, ?_⟩
  · intro l hl
    rcases List.mem_cons.1 hl with h | h
    · subst h; rfl
    · rcases List.mem_map.1 h with ⟨r, _, rfl⟩
      simp [ChartWeekDump.FIELDS]
  · intro r _
    constructor
    · intro h
      simp [ChartWeekDump.FIELDS, ChartWeekDump.csvCell, h]
    · intro h
      simp [ChartWeekDump.FIELDS, ChartWeekDump.csvCell, h]

/-- Witness for C8: a concrete row with `lastPos = None` and no artwork URL
renders empty cells in the `lastPos` and `image` columns, inside a CSV with
the fixed 8-column header. -/
theorem c8_csv_fixed_columns_witness :
    (ChartWeekDump.csv_output [⟨1, "X", "Y", none, some 1, some 10, false, none⟩]).head? =
      some ["rank", "title", "artist", "lastPos", "peakPos", "weeks", "isNew", "image"] ∧
    (ChartWeekDump.FIELDS.map
        (ChartWeekDump.csvCell ⟨1, "X", "Y", none, some 1, some 10, false, none⟩)).getD 3 "?" = "" :=
  ⟨(c8_csv_fixed_columns [⟨1, "X", "Y", none, some 1, some 10, false, none⟩]).1,
   ((c8_csv_fixed_columns [⟨1, "X", "Y", none, some 1, some 10, false, none⟩]).2.2.2
      ⟨1, "X", "Y", none, some 1, some 10, false, none⟩ (List.mem_singleton.2 rfl)).1 rfl⟩

namespace ExportChartJson

/-- The suffix scan started at `n` with enough fuel to reach a free slot
stops at the first free suffix at or after `n`. -/
theorem find_free_spec (fs : String → Bool) (slug date : String) :
    ∀ fuel n N, n ≤ N → N < n + fuel → fs (suffix_path slug date N) = false →
      n ≤ find_free fs slug date n fuel ∧
      fs (suffix_path slug date (find_free fs slug date n fuel)) = false ∧
      ∀ k, n ≤ k → k < find_free fs slug date n fuel →
        fs (suffix_path slug date k) = true := by
  intro fuel
  induction fuel with
  | zero => intro n N h1 h2 _; omega
  | succ fuel ih =>
    intro n N h1 h2 hfree
    by_cases hn : fs (suffix_path slug date n) = true
    · have hnN : n ≠ N := by
        intro e
        rw [e, hfree] at hn
        exact Bool.false_ne_true hn
      have heq : find_free fs slug date n (fuel + 1) = find_free fs slug date (n + 1) fuel := by
        simp [find_free, hn]
      obtain ⟨ih1, ih2, ih3⟩ := ih (n + 1) N (by omega) (by omega) hfree
      rw [heq]
      refine ⟨by omega, ih2, ?_⟩
      intro k hk1 hk2
      rcases Nat.eq_or_lt_of_le hk1 with h | h
      · rw [← h]; exact hn
      · exact ih3 k (by omega) hk2
    · have heq : find_free fs slug date n (fuel + 1) = n := by
        simp [find_free, hn]
      rw [heq]
      exact ⟨Nat.le_refl n, Bool.eq_false_iff.2 hn, fun k hk1 hk2 => absurd (Nat.lt_of_le_of_lt hk1 hk2) (Nat.lt_irrefl n)⟩

end ExportChartJson

/-- C5: when the exporter is invoked without an explicit output path, the
chosen path is the deterministic `public/charts/slug/slug-date.json` when
free, and otherwise `...-n.json` for the smallest positive `n` whose path
does not exist; in either case the chosen path never names an existing
file.  The hypothesis states that some suffix within the scan's fuel is
free, which holds for every finite file system. -/
theorem c5_default_path_never_overwrites (fs : String → Bool) (slug date : String)
    (fuel N : Nat) (hN1 : 1 ≤ N) (hNf : N < 1 + fuel)
    (hfree : fs (ExportChartJson.suffix_path slug date N) = false) :
    (fs (ExportChartJson.base_path slug date) = false →
      ExportChartJson.default_out_path fs fuel slug date = ExportChartJson.base_path slug date) ∧
    (fs (ExportChartJson.base_path slug date) = true →
      ∃ n, 1 ≤ n ∧
        ExportChartJson.default_out_path fs fuel slug date = ExportChartJson.suffix_path slug date n ∧
        fs (ExportChartJson.suffix_path slug date n) = false ∧
        ∀ k, 1 ≤ k → k < n → fs (ExportChartJson.suffix_path slug date k) = true) ∧
    fs (ExportChartJson.default_out_path fs fuel slug date) = false := by
  obtain ⟨h1, h2, h3⟩ := ExportChartJson.find_free_spec fs slug date fuel 1 N hN1 hNf hfree
  by_cases hb : fs (ExportChartJson.base_path slug date) = true
  · have heq : ExportChartJson.default_out_path fs fuel slug date =
        ExportChartJson.suffix_path slug date (ExportChartJson.find_free fs slug date 1 fuel) := by
      simp [ExportChartJson.default_out_path, hb]
    refine ⟨fun hc => absurd hb (by rw [hc]; exact Bool.false_ne_true), fun _ => ⟨_, h1, heq, h2, h3⟩, ?_⟩
    rw [heq]; exact h2
  · have hb2 : fs (ExportChartJson.base_path slug date) = false := Bool.eq_false_iff.2 hb
    have heq : ExportChartJson.default_out_path fs fuel slug date =
        ExportChartJson.base_path slug date := by
      simp [ExportChartJson.default_out_path, hb2]
    exact ⟨fun _ => heq, fun hc => absurd hc hb, by rw [heq]; exact hb2⟩

/-- Witness for C5: with exactly `slug-date.json` and `slug-date-1.json`
present, the chosen default path is `slug-date-2.json`. -/
theorem c5_default_path_never_overwrites_witness :
    ∃ n, 1 ≤ n ∧
      ExportChartJson.default_out_path
        (fun s => s == ExportChartJson.base_path "hot-100" "2021-07-03" ||
          s == ExportChartJson.suffix_path "hot-100" "2021-07-03" 1) 5 "hot-100" "2021-07-03" =
        ExportChartJson.suffix_path "hot-100" "2021-07-03" n ∧
      (fun s => s == ExportChartJson.base_path "hot-100" "2021-07-03" ||
        s == ExportChartJson.suffix_path "hot-100" "2021-07-03" 1)
        (ExportChartJson.suffix_path "hot-100" "2021-07-03" n) = false ∧
      ∀ k, 1 ≤ k → k < n →
        (fun s => s == ExportChartJson.base_path "hot-100" "2021-07-03" ||
          s == ExportChartJson.suffix_path "hot-100" "2021-07-03" 1)
          (ExportChartJson.suffix_path "hot-100" "2021-07-03" k) = true :=
  (c5_default_path_never_overwrites
    (fun s => s == ExportChartJson.base_path "hot-100" "2021-07-03" ||
      s == ExportChartJson.suffix_path "hot-100" "2021-07-03" 1)
    "hot-100" "2021-07-03" 5 2 (by decide) (by decide) (by decide)).2.1 (by decide)

/-- C2 counterexample: a malformed `--start` date passed to the history
walker does not exit with code 2 — `parse_date` is called outside the `try`
block, so the `ValueError` is uncaught (the interpreter dies with a
traceback, status 1). -/
theorem c2_counterexample_walker_uncaught_valueerror :
    ChartsAndWeeks.walker_args (some "2020-13-01") none = ArgOutcome.uncaught ∧
    ChartsAndWeeks.walker_args (some "2020-13-01") none ≠ ArgOutcome.exitCode 2 := by
  constructor
  · rfl
  · intro h
    exact ArgOutcome.noConfusion h

/-- C2 amended: argument/validation errors in the dumper and the exporter
(malformed date, disallowed slug, missing or doubled mutually-exclusive
flag) exit with code 2; but two error paths escape as uncaught exceptions
instead: a malformed non-empty `--start`/`--end` in the history walker
raises an uncaught `ValueError`, and the exporter invoked with `--since ""`
passes argparse yet falls into the `--date` branch with `args.date = None`,
raising an uncaught `TypeError`.  Statements about rejected date strings
are scoped to ASCII arguments, where `strptimeYMD` coincides with CPython
(CPython's `\d` additionally accepts non-ASCII Unicode digits). -/
theorem c2_amended_arg_errors :
    (∀ d, asciiOnly d = true → strptimeYMD d = none →
      ChartWeekDump.dumper_args d = ArgOutcome.exitCode 2) ∧
    (∀ ch d s, ExportChartJson.argparse_group_ok d s = false →
      ExportChartJson.exporter_args ch d s = ArgOutcome.exitCode 2) ∧
    (∀ ch d s, ExportChartJson.ALLOWED_CHARTS.contains (pyStrip ch) = false →
      ExportChartJson.exporter_args ch d s = ArgOutcome.exitCode 2) ∧
    (∀ ch d, asciiOnly d = true → strptimeYMD d = none →
      ExportChartJson.exporter_args ch (some d) none = ArgOutcome.exitCode 2) ∧
    (∀ ch s, s ≠ "" → asciiOnly s = true → strptimeYMD s = none →
      ExportChartJson.exporter_args ch none (some s) = ArgOutcome.exitCode 2) ∧
    (∀ ch, ExportChartJson.ALLOWED_CHARTS.contains (pyStrip ch) = true →
      ExportChartJson.exporter_args ch none (some "") = ArgOutcome.uncaught) ∧
    (∀ s stopArg, s ≠ "" → asciiOnly s = true → strptimeYMD s = none →
      ChartsAndWeeks.walker_args (some s) stopArg = ArgOutcome.uncaught) ∧
    (∀ e, e ≠ "" → asciiOnly e = true → strptimeYMD e = none →
      ChartsAndWeeks.walker_args none (some e) = ArgOutcome.uncaught) := by
  refine ⟨?_, ?_, ?_, ?_, ?_, ?_, ?_, ?_⟩
  · intro d _ hd
    simp [ChartWeekDump.dumper_args, ChartWeekDump.validate_date, hd]
  · intro ch d s hg
    simp [ExportChartJson.exporter_args, hg]
  · intro ch d s hc
    have hc2 : ¬(pyStrip ch ∈ ExportChartJson.ALLOWED_CHARTS) := by
      simpa using hc
    by_cases hg : ExportChartJson.argparse_group_ok d s = false
    · simp [ExportChartJson.exporter_args, hg]
    · rw [Bool.not_eq_false] at hg
      simp [ExportChartJson.exporter_args, hg, hc2]
  · intro ch d _ hd
    by_cases hc : pyStrip ch ∈ ExportChartJson.ALLOWED_CHARTS
    · simp [ExportChartJson.exporter_args, ExportChartJson.argparse_group_ok, hc, argTruthy,
        ExportChartJson.validate_date, hd]
    · simp [ExportChartJson.exporter_args, ExportChartJson.argparse_group_ok, hc]
  · intro ch s hne _ hs
    by_cases hc : pyStrip ch ∈ ExportChartJson.ALLOWED_CHARTS
    · simp [ExportChartJson.exporter_args, ExportChartJson.argparse_group_ok, hc, argTruthy,
        hne, ExportChartJson.validate_date, hs]
    · simp [ExportChartJson.exporter_args, ExportChartJson.argparse_group_ok, hc]
  · intro ch hc
    have hc2 : pyStrip ch ∈ ExportChartJson.ALLOWED_CHARTS := by simpa using hc
    simp [ExportChartJson.exporter_args, ExportChartJson.argparse_group_ok, hc2, argTruthy]
  · intro s stopArg hne _ hs
    simp [ChartsAndWeeks.walker_args, ChartsAndWeeks.walker_parse_arg, argTruthy, hne,
      ChartsAndWeeks.parse_date, hs]
  · intro e hne _ he
    simp [ChartsAndWeeks.walker_args, ChartsAndWeeks.walker_parse_arg, argTruthy, hne,
      ChartsAndWeeks.parse_date, he]

/-- Witness for C2 (amended): a concrete malformed date exits the dumper
with code 2, a concrete disallowed slug exits the exporter with code 2, an
empty `--since` dies on an uncaught `TypeError`, and a concrete malformed
`--start` dies on an uncaught `ValueError` in the walker. -/
theorem c2_amended_arg_errors_witness :
    ChartWeekDump.dumper_args "2020-99-01" = ArgOutcome.exitCode 2 ∧
    ExportChartJson.exporter_args "not-a-real-chart" (some "2020-01-04") none =
      ArgOutcome.exitCode 2 ∧
    ExportChartJson.exporter_args "hot-100" none (some "") = ArgOutcome.uncaught ∧
    ChartsAndWeeks.walker_args (some "nonsense") none = ArgOutcome.uncaught :=
  ⟨c2_amended_arg_errors.1 "2020-99-01" (by decide) (by decide),
   c2_amended_arg_errors.2.2.1 "not-a-real-chart" (some "2020-01-04") none (by decide),
   c2_amended_arg_errors.2.2.2.2.2.1 "hot-100" (by decide),
   c2_amended_arg_errors.2.2.2.2.2.2.1 "nonsense" none (by decide) (by decide) (by decide)⟩

namespace ChartsAndWeeks

open BillboardTrivia

theorem step_emit_len (dstr : String) (start stop : Option PyDate) (emit : List String)
    (h : step_emit dstr start stop = Except.ok emit) : emit.length ≤ 1 := by
  unfold step_emit at h
  split at h
  · split at h
    · exact absurd h (by simp)
    · injection h with h2
      subst h2
      split <;> simp
  · injection h with h2
    subst h2
    simp

theorem iter_weeks_count_le (start stop : Option PyDate) (limit : Option Int) :
    ∀ (chain : List ChartData) (count : Nat),
      count ≤ (iter_weeks start stop limit chain count).count := by
  intro chain
  induction chain with
  | nil => intro count; exact Nat.le_refl _
  | cons chart rest ih =>
    intro count
    simp only [iter_weeks]
    cases hd : chart.date with
    | none => exact Nat.le_refl _
    | some dstr =>
      repeat' split
      all_goals
        first
          | exact Nat.le_refl _
          | exact Nat.le_succ _
          | exact Nat.le_trans (Nat.le_succ _) (ih (count + 1))

theorem iter_weeks_emitted_len (start stop : Option PyDate) (limit : Option Int) :
    ∀ (chain : List ChartData) (count : Nat),
      (iter_weeks start stop limit chain count).emitted.length + count ≤
        (iter_weeks start stop limit chain count).count := by
  intro chain
  induction chain with
  | nil => intro count; simp [iter_weeks]
  | cons chart rest ih =>
    intro count
    simp only [iter_weeks]
    cases hd : chart.date with
    | none => simp
    | some dstr =>
      dsimp only
      split
      · simp
      · cases hstep : step_emit dstr start stop with
        | error e => simp [hstep]
        | ok emit =>
          have hel := step_emit_len dstr start stop emit hstep
          simp only [hstep]
          split
          · show emit.length + count ≤ count + 1
            omega
          · cases hprev : prevTruthy chart.previousDate with
            | none =>
              simp only [hprev]
              show emit.length + count ≤ count + 1
              omega
            | some p =>
              have h := ih (count + 1)
              simp only [hprev]
              show (emit ++ (iter_weeks start stop limit rest (count + 1)).emitted).length + count ≤
                (iter_weeks start stop limit rest (count + 1)).count
              simp only [List.length_append]
              omega

theorem iter_weeks_limit_le (start stop : Option PyDate) (l : Int) (hl : 0 < l) :
    ∀ (chain : List ChartData) (count : Nat), count < l.toNat →
      (iter_weeks start stop (some l) chain count).count ≤ l.toNat := by
  intro chain
  induction chain with
  | nil => intro count h; exact Nat.le_of_lt h
  | cons chart rest ih =>
    intro count hcount
    simp only [iter_weeks]
    cases hd : chart.date with
    | none => exact Nat.le_of_lt hcount
    | some dstr =>
      dsimp only
      split
      · exact Nat.le_of_lt hcount
      · cases hstep : step_emit dstr start stop with
        | error e => simp only [hstep]; exact Nat.le_of_lt hcount
        | ok emit =>
          simp only [hstep]
          by_cases hhit : limitHit (some l) (count + 1) = true
          · rw [if_pos hhit]
            show count + 1 ≤ l.toNat
            omega
          · rw [if_neg hhit]
            have hlt : count + 1 < l.toNat := by
              by_contra hc
              apply hhit
              simp only [limitHit, Bool.and_eq_true, Bool.not_eq_true', beq_eq_false_iff_ne,
                ne_eq, decide_eq_true_eq]
              exact ⟨by omega, by omega⟩
            cases hprev : prevTruthy chart.previousDate with
            | none =>
              simp only [hprev]
              show count + 1 ≤ l.toNat
              omega
            | some p =>
              simp only [hprev]
              show (iter_weeks start stop (some l) rest (count + 1)).count ≤ l.toNat
              exact ih (count + 1) hlt

theorem within_bounds_isOk (dstr : String) (start stop : Option PyDate)
    (h : parse_date dstr ≠ none) : ∃ b, within_bounds dstr start stop = Except.ok b := by
  unfold within_bounds
  split
  · exact ⟨false, rfl⟩
  · cases hp : parse_date dstr with
    | none => exact absurd hp h
    | some d =>
      simp only [hp]
      split
      · exact ⟨false, rfl⟩
      · split
        · exact ⟨false, rfl⟩
        · exact ⟨true, rfl⟩

theorem iter_weeks_count_bounds_free (start stop : Option PyDate) (limit : Option Int) :
    ∀ (chain : List ChartData), datesParseable chain → ∀ count,
      (iter_weeks start stop limit chain count).count =
        (iter_weeks none none limit chain count).count := by
  intro chain
  induction chain with
  | nil => intro _ count; rfl
  | cons chart rest ih =>
    intro hpars count
    have hparsrest : datesParseable rest :=
      fun c hc d hd => hpars c (List.mem_cons_of_mem _ hc) d hd
    simp only [iter_weeks]
    cases hd : chart.date with
    | none => rfl
    | some dstr =>
      dsimp only
      split
      · rfl
      · have hstepR : step_emit dstr none none = Except.ok [dstr] := rfl
        have hpd : parse_date dstr ≠ none := hpars chart (List.mem_cons_self _ _) dstr hd
        obtain ⟨b, hb⟩ := within_bounds_isOk dstr start stop hpd
        have hstepL : ∃ em, step_emit dstr start stop = Except.ok em := by
          unfold step_emit
          split
          · rw [hb]; exact ⟨_, rfl⟩
          · exact ⟨_, rfl⟩
        obtain ⟨em, hem⟩ := hstepL
        simp only [hem, hstepR]
        by_cases hhit : limitHit limit (count + 1) = true
        · rw [if_pos hhit, if_pos hhit]
        · rw [if_neg hhit, if_neg hhit]
          cases hprev : prevTruthy chart.previousDate with
          | none => simp only [hprev]
          | some p =>
            simp only [hprev]
            show (iter_weeks start stop limit rest (count + 1)).count =
              (iter_weeks none none limit rest (count + 1)).count
            exact ih hparsrest (count + 1)

theorem iter_weeks_wf_count (chain : List ChartData) :
    wf_chain chain → ∀ count,
      (iter_weeks none none none chain count).count = count + chain.length ∧
      (iter_weeks none none none chain count).raised = false := by
  induction chain with
  | nil => intro _ count; exact ⟨rfl, rfl⟩
  | cons chart rest ih =>
    intro h count
    cases rest with
    | nil =>
      obtain ⟨⟨hent, d, hd, hdne⟩, hprev⟩ := h
      simp only [iter_weeks]
      simp only [hd]
      rw [if_neg (by simp [hent, hdne])]
      have hstep : step_emit d none none = Except.ok [d] := rfl
      simp only [hstep]
      rw [if_neg (by simp [limitHit])]
      simp only [hprev]
      simp
    | cons c2 rest2 =>
      obtain ⟨⟨hent, d, hd, hdne⟩, hprev, hwf⟩ := h
      obtain ⟨p, hp⟩ : ∃ p, prevTruthy chart.previousDate = some p := by
        cases hx : prevTruthy chart.previousDate with
        | none => exact absurd hx hprev
        | some p => exact ⟨p, rfl⟩
      simp only [iter_weeks]
      simp only [hd]
      rw [if_neg (by simp [hent, hdne])]
      have hstep : step_emit d none none = Except.ok [d] := rfl
      simp only [hstep]
      rw [if_neg (by simp [limitHit])]
      simp only [hp]
      obtain ⟨ihc, ihr⟩ := ih hwf (count + 1)
      constructor
      · show (iter_weeks none none none (c2 :: rest2) (count + 1)).count =
          count + (c2 :: rest2).length + 1
        rw [ihc]
        simp [List.length_cons]
        omega
      · show (iter_weeks none none none (c2 :: rest2) (count + 1)).raised = false
        exact ihr

theorem iter_weeks_nobounds_emits_all (limit : Option Int) :
    ∀ (chain : List ChartData) (count : Nat),
      (iter_weeks none none limit chain count).emitted =
        ((chain.take ((iter_weeks none none limit chain count).count - count)).map
          (fun c => c.date.getD "")) := by
  intro chain
  induction chain with
  | nil => intro count; simp [iter_weeks]
  | cons chart rest ih =>
    intro count
    simp only [iter_weeks]
    cases hd : chart.date with
    | none => simp
    | some dstr =>
      dsimp only
      split
      · simp
      · have hstep : step_emit dstr none none = Except.ok [dstr] := rfl
        simp only [hstep]
        split
        · show [dstr] = ((chart :: rest).take (count + 1 - count)).map (fun c => c.date.getD "")
          have h1 : count + 1 - count = 1 := by omega
          rw [h1]
          simp [hd]
        · cases hprev : prevTruthy chart.previousDate with
          | none =>
            simp only [hprev]
            show [dstr] = ((chart :: rest).take (count + 1 - count)).map (fun c => c.date.getD "")
            have h1 : count + 1 - count = 1 := by omega
            rw [h1]
            simp [hd]
          | some p =>
            simp only [hprev]
            have hle := iter_weeks_count_le none none limit rest (count + 1)
            have hih := ih (count + 1)
            show [dstr] ++ (iter_weeks none none limit rest (count + 1)).emitted =
              ((chart :: rest).take
                ((iter_weeks none none limit rest (count + 1)).count - count)).map
                (fun c => c.date.getD "")
            have h1 : (iter_weeks none none limit rest (count + 1)).count - count =
                ((iter_weeks none none limit rest (count + 1)).count - (count + 1)) + 1 := by
              omega
            rw [h1, List.take_succ_cons, List.map_cons, hd, hih]
            rfl

theorem step_emit_some_some (dstr : String) (s e : PyDate) :
    step_emit dstr (some s) (some e) =
      match within_bounds dstr (some s) (some e) with
      | Except.error _ => Except.error ()
      | Except.ok b => Except.ok (if b then [dstr] else []) := rfl

theorem within_bounds_ok_true (dstr : String) (s e : PyDate)
    (h : within_bounds dstr (some s) (some e) = Except.ok true) :
    ∃ dv, parse_date dstr = some dv ∧ PyDate.lt dv s = false ∧ PyDate.lt e dv = false := by
  unfold within_bounds at h
  split at h
  · exact absurd h (by simp)
  · cases hp : parse_date dstr with
    | none => rw [hp] at h; exact absurd h (by simp)
    | some dv =>
      rw [hp] at h
      simp only [Option.elim] at h
      split at h
      · exact absurd h (by simp)
      · split at h
        · exact absurd h (by simp)
        · rename_i h1 h2
          exact ⟨dv, rfl, by simpa using h1, by simpa using h2⟩

theorem iter_weeks_bounded_emits_in (s e : PyDate) (limit : Option Int) :
    ∀ (chain : List ChartData) (count : Nat) (d : String),
      d ∈ (iter_weeks (some s) (some e) limit chain count).emitted →
      ∃ dv, parse_date d = some dv ∧ PyDate.lt dv s = false ∧ PyDate.lt e dv = false := by
  intro chain
  induction chain with
  | nil => intro count d hd; simp [iter_weeks] at hd
  | cons chart rest ih =>
    intro count d
    simp only [iter_weeks]
    cases hdate : chart.date with
    | none => intro hmem; simp at hmem
    | some dstr =>
      dsimp only
      split
      · intro hmem; simp at hmem
      · cases hstep : step_emit dstr (some s) (some e) with
        | error e2 => simp only [hstep]; intro hmem; simp at hmem
        | ok emit =>
          simp only [hstep]
          rw [step_emit_some_some] at hstep
          have hcase : ∀ d2, d2 ∈ emit →
              ∃ dv, parse_date d2 = some dv ∧ PyDate.lt dv s = false ∧ PyDate.lt e dv = false := by
            intro d2 hd2
            cases hwb : within_bounds dstr (some s) (some e) with
            | error u => rw [hwb] at hstep; exact absurd hstep (by simp)
            | ok b =>
              rw [hwb] at hstep
              injection hstep with h2
              cases b with
              | false =>
                rw [← h2] at hd2
                simp at hd2
              | true =>
                rw [← h2] at hd2
                simp only [if_true] at hd2
                rw [List.mem_singleton] at hd2
                subst hd2
                exact within_bounds_ok_true _ s e hwb
          split
          · intro hmem
            exact hcase d hmem
          · cases hprev : prevTruthy chart.previousDate with
            | none =>
              simp only [hprev]
              intro hmem
              exact hcase d hmem
            | some p =>
              simp only [hprev]
              intro hmem
              rcases List.mem_append.1 hmem with hm | hm
              · exact hcase d hm
              · exact ih (count + 1) d hm

end ChartsAndWeeks

/-- C1: with a positive limit the weekly walk emits at most `limit` dates;
every traversed snapshot — including dates filtered out by the bounds —
counts toward the limit (the traversal count is the same with or without
bounds, and emissions never exceed traversals); and with no limit, on a
well-formed finite chain the walk traverses the entire chain, terminating
exactly at the snapshot whose previous-date pointer is null/absent, without
raising. -/
theorem c1_weekly_walk_termination :
    (∀ (start stop : Option PyDate) (l : Int) (chain : List ChartData), 0 < l →
      (ChartsAndWeeks.iter_weeks start stop (some l) chain 0).emitted.length ≤ l.toNat ∧
      (ChartsAndWeeks.iter_weeks start stop (some l) chain 0).count ≤ l.toNat) ∧
    (∀ (start stop : Option PyDate) (limit : Option Int) (chain : List ChartData),
      (ChartsAndWeeks.iter_weeks start stop limit chain 0).emitted.length ≤
        (ChartsAndWeeks.iter_weeks start stop limit chain 0).count) ∧
    (∀ (start stop : Option PyDate) (limit : Option Int) (chain : List ChartData),
      ChartsAndWeeks.datesParseable chain →
      (ChartsAndWeeks.iter_weeks start stop limit chain 0).count =
        (ChartsAndWeeks.iter_weeks none none limit chain 0).count) ∧
    (∀ chain : List ChartData, ChartsAndWeeks.wf_chain chain →
      (ChartsAndWeeks.iter_weeks none none none chain 0).count = chain.length ∧
      (ChartsAndWeeks.iter_weeks none none none chain 0).raised = false) := by
  refine ⟨?_, ?_, ?_, ?_⟩
  · intro start stop l chain hl
    have hc := ChartsAndWeeks.iter_weeks_limit_le start stop l hl chain 0 (by omega)
    have he := ChartsAndWeeks.iter_weeks_emitted_len start stop (some l) chain 0
    exact ⟨by omega, hc⟩
  · intro start stop limit chain
    have he := ChartsAndWeeks.iter_weeks_emitted_len start stop limit chain 0
    omega
  · intro start stop limit chain h
    exact ChartsAndWeeks.iter_weeks_count_bounds_free start stop limit chain h 0
  · intro chain h
    have hc := ChartsAndWeeks.iter_weeks_wf_count chain h 0
    simpa using hc

/-- Witness for C1: a concrete two-snapshot chain whose last previous-date
pointer is null is traversed completely (count 2, no raise) when no limit
is given. -/
theorem c1_weekly_walk_termination_witness :
    (ChartsAndWeeks.iter_weeks none none none
      [⟨some "2025-10-11", some "2025-10-04", [⟨1, "X", "Y", none, some 1, some 2, none, none⟩]⟩,
       ⟨some "2025-10-04", none, [⟨1, "X", "Y", none, some 1, some 2, none, none⟩]⟩] 0).count =
      ([⟨some "2025-10-11", some "2025-10-04", [⟨1, "X", "Y", none, some 1, some 2, none, none⟩]⟩,
        ⟨some "2025-10-04", none, [⟨1, "X", "Y", none, some 1, some 2, none, none⟩]⟩] :
          List ChartData).length ∧
    (ChartsAndWeeks.iter_weeks none none none
      [⟨some "2025-10-11", some "2025-10-04", [⟨1, "X", "Y", none, some 1, some 2, none, none⟩]⟩,
       ⟨some "2025-10-04", none, [⟨1, "X", "Y", none, some 1, some 2, none, none⟩]⟩] 0).raised =
      false :=
  c1_weekly_walk_termination.2.2.2
    [⟨some "2025-10-11", some "2025-10-04", [⟨1, "X", "Y", none, some 1, some 2, none, none⟩]⟩,
     ⟨some "2025-10-04", none, [⟨1, "X", "Y", none, some 1, some 2, none, none⟩]⟩]
    ⟨⟨by decide, "2025-10-11", rfl, by decide⟩, by decide,
     ⟨by decide, "2025-10-04", rfl, by decide⟩, by decide⟩

/-- C6: with both bounds supplied, every emitted date parses to a date
within the inclusive [start, stop] interval; with no bounds supplied, the
walk emits exactly the resolved date of every snapshot it traverses. -/
theorem c6_walker_bound_filtering :
    (∀ (s e : PyDate) (limit : Option Int) (chain : List ChartData) (count : Nat) (d : String),
      d ∈ (ChartsAndWeeks.iter_weeks (some s) (some e) limit chain count).emitted →
      ∃ dv, ChartsAndWeeks.parse_date d = some dv ∧
        PyDate.lt dv s = false ∧ PyDate.lt e dv = false) ∧
    (∀ (limit : Option Int) (chain : List ChartData) (count : Nat),
      (ChartsAndWeeks.iter_weeks none none limit chain count).emitted =
        ((chain.take
            ((ChartsAndWeeks.iter_weeks none none limit chain count).count - count)).map
          (fun c => c.date.getD ""))) :=
  ⟨fun s e limit chain count d h =>
      ChartsAndWeeks.iter_weeks_bounded_emits_in s e limit chain count d h,
   fun limit chain count =>
      ChartsAndWeeks.iter_weeks_nobounds_emits_all limit chain count⟩

/-- Witness for C6: on a concrete one-snapshot chain with bounds
2025-01-01 .. 2025-12-31, the emitted date 2025-10-11 parses inside the
bounds. -/
theorem c6_walker_bound_filtering_witness :
    ∃ dv, ChartsAndWeeks.parse_date "2025-10-11" = some dv ∧
      PyDate.lt dv ⟨2025, 1, 1⟩ = false ∧ PyDate.lt ⟨2025, 12, 31⟩ dv = false :=
  c6_walker_bound_filtering.1 ⟨2025, 1, 1⟩ ⟨2025, 12, 31⟩ none
    [⟨some "2025-10-11", none, [⟨1, "X", "Y", none, some 1, some 2, none, none⟩]⟩] 0
    "2025-10-11" (by decide)


namespace BillboardTrivia

theorem firstParse_cons_some (v : Nat) (rest : List Char) (more : List (Nat × List Char))
    (k : Nat → List Char → Option PyDate) (r : PyDate) (h : k v rest = some r) :
    firstParse ((v, rest) :: more) k = some r := by
  unfold firstParse
  rw [h]

theorem firstParse_cons_ex (v : Nat) (rest : List Char) (more : List (Nat × List Char))
    (k : Nat → List Char → Option PyDate) (h : ∃ r, k v rest = some r) :
    ∃ r, firstParse ((v, rest) :: more) k = some r := by
  obtain ⟨r, hr⟩ := h
  exact ⟨r, firstParse_cons_some v rest more k r hr⟩

theorem firstParse_some (alts : List (Nat × List Char)) (k : Nat → List Char → Option PyDate)
    (r : PyDate) (h : firstParse alts k = some r) :
    ∃ v rest, (v, rest) ∈ alts ∧ k v rest = some r := by
  induction alts with
  | nil => cases h
  | cons a more ih =>
    obtain ⟨v, rest⟩ := a
    unfold firstParse at h
    cases hk : k v rest with
    | some r2 =>
      rw [hk] at h
      injection h with h2
      subst h2
      exact ⟨v, rest, List.mem_cons_self _ _, hk⟩
    | none =>
      rw [hk] at h
      obtain ⟨v2, rest2, hmem, hk2⟩ := ih h
      exact ⟨v2, rest2, List.mem_cons_of_mem _ hmem, hk2⟩

theorem monthAlts_mem (cs : List Char) (v : Nat) (rest : List Char)
    (h : (v, rest) ∈ monthAlts cs) : 1 ≤ v ∧ v ≤ 12 := by
  unfold monthAlts at h
  cases cs with
  | nil => simp at h
  | cons c1 tl =>
    cases tl with
    | nil =>
      simp [dval] at h
      omega
    | cons c2 tl2 =>
      simp [dval] at h
      omega

theorem dayAlts_mem (cs : List Char) (v : Nat) (rest : List Char)
    (h : (v, rest) ∈ dayAlts cs) : 1 ≤ v ∧ v ≤ 31 := by
  unfold dayAlts at h
  cases cs with
  | nil => simp at h
  | cons c1 tl =>
    cases tl with
    | nil =>
      simp [dval] at h
      omega
    | cons c2 tl2 =>
      simp [dval] at h
      omega

theorem daysInMonth_le_31 (y m : Nat) : daysInMonth y m ≤ 31 := by
  unfold daysInMonth
  split
  · split <;> omega
  · split <;> omega

theorem specCanonical_accepted (s : String) (h : specCanonicalYMD s = true) :
    ∃ dv, strptimeYMD s = some dv := by
  unfold specCanonicalYMD at h
  split at h
  next y1 y2 y3 y4 s1 m1 m2 s2 d1 d2 heq =>
    simp only [isDigit, dval, Bool.and_eq_true, decide_eq_true_eq, beq_iff_eq] at h
    unfold strptimeYMD
    rw [heq]
    have hguard : (isDigit y1 && isDigit y2 && isDigit y3 && isDigit y4 &&
        (s1.toNat == 45)) = true := by
      simp only [isDigit, Bool.and_eq_true, decide_eq_true_eq, beq_iff_eq]
      omega
    dsimp only
    rw [if_pos hguard]
    unfold monthAlts
    dsimp only
    simp only [dval]
    by_cases hA : m1.toNat = 49 ∧ 48 ≤ m2.toNat ∧ m2.toNat ≤ 50
    · rw [if_pos hA, List.singleton_append]
      apply firstParse_cons_ex
      dsimp only
      rw [if_pos (show s2.toNat = 45 by omega)]
      have hmeq : 10 + (m2.toNat - 48) = (m1.toNat - 48) * 10 + (m2.toNat - 48) := by omega
      rw [hmeq]
      unfold dayAlts
      dsimp only
      simp only [dval]
      by_cases hD1 : d1.toNat = 51 ∧ 48 ≤ d2.toNat ∧ d2.toNat ≤ 49
      · rw [if_pos hD1, List.singleton_append]
        apply firstParse_cons_ex
        dsimp only
        rw [if_pos (show ([] : List Char).isEmpty = true from rfl)]
        exact ⟨_, if_pos (by omega)⟩
      · by_cases hD2 : 49 ≤ d1.toNat ∧ d1.toNat ≤ 50 ∧ 48 ≤ d2.toNat ∧ d2.toNat ≤ 57
        · rw [if_neg hD1]
          simp only [List.nil_append]
          rw [if_pos hD2, List.singleton_append]
          apply firstParse_cons_ex
          dsimp only
          rw [if_pos (show ([] : List Char).isEmpty = true from rfl)]
          exact ⟨_, if_pos (by omega)⟩
        · by_cases hD3 : d1.toNat = 48 ∧ 49 ≤ d2.toNat ∧ d2.toNat ≤ 57
          · rw [if_neg hD1]
            simp only [List.nil_append]
            rw [if_neg hD2]
            simp only [List.nil_append]
            rw [if_pos hD3, List.singleton_append]
            apply firstParse_cons_ex
            dsimp only
            rw [if_pos (show ([] : List Char).isEmpty = true from rfl)]
            exact ⟨_, if_pos (by omega)⟩
          · exfalso
            have h31 := daysInMonth_le_31
              ((y1.toNat - 48) * 1000 + (y2.toNat - 48) * 100 + (y3.toNat - 48) * 10 +
                (y4.toNat - 48))
              ((m1.toNat - 48) * 10 + (m2.toNat - 48))
            omega
    · by_cases hB : m1.toNat = 48 ∧ 49 ≤ m2.toNat ∧ m2.toNat ≤ 57
      · rw [if_neg hA]
        simp only [List.nil_append]
        rw [if_pos hB, List.singleton_append]
        apply firstParse_cons_ex
        dsimp only
        rw [if_pos (show s2.toNat = 45 by omega)]
        have hmeq : m2.toNat - 48 = (m1.toNat - 48) * 10 + (m2.toNat - 48) := by omega
        rw [hmeq]
        unfold dayAlts
        dsimp only
        simp only [dval]
        by_cases hD1 : d1.toNat = 51 ∧ 48 ≤ d2.toNat ∧ d2.toNat ≤ 49
        · rw [if_pos hD1, List.singleton_append]
          apply firstParse_cons_ex
          dsimp only
          rw [if_pos (show ([] : List Char).isEmpty = true from rfl)]
          exact ⟨_, if_pos (by omega)⟩
        · by_cases hD2 : 49 ≤ d1.toNat ∧ d1.toNat ≤ 50 ∧ 48 ≤ d2.toNat ∧ d2.toNat ≤ 57
          · rw [if_neg hD1]
            simp only [List.nil_append]
            rw [if_pos hD2, List.singleton_append]
            apply firstParse_cons_ex
            dsimp only
            rw [if_pos (show ([] : List Char).isEmpty = true from rfl)]
            exact ⟨_, if_pos (by omega)⟩
          · by_cases hD3 : d1.toNat = 48 ∧ 49 ≤ d2.toNat ∧ d2.toNat ≤ 57
            · rw [if_neg hD1]
              simp only [List.nil_append]
              rw [if_neg hD2]
              simp only [List.nil_append]
              rw [if_pos hD3, List.singleton_append]
              apply firstParse_cons_ex
              dsimp only
              rw [if_pos (show ([] : List Char).isEmpty = true from rfl)]
              exact ⟨_, if_pos (by omega)⟩
            · exfalso
              have h31 := daysInMonth_le_31
                ((y1.toNat - 48) * 1000 + (y2.toNat - 48) * 100 + (y3.toNat - 48) * 10 +
                  (y4.toNat - 48))
                ((m1.toNat - 48) * 10 + (m2.toNat - 48))
              omega
      · exfalso
        omega
  next => cases h

theorem strptimeYMD_real_date (s : String) (dv : PyDate) (h : strptimeYMD s = some dv) :
    1 ≤ dv.year ∧ 1 ≤ dv.month ∧ dv.month ≤ 12 ∧ 1 ≤ dv.day ∧
      dv.day ≤ daysInMonth dv.year dv.month := by
  unfold strptimeYMD at h
  split at h
  · split at h
    · obtain ⟨m, rest2, hmm, hk⟩ := firstParse_some _ _ _ h
      have hmb := monthAlts_mem _ _ _ hmm
      cases rest2 with
      | nil => simp at hk
      | cons sep2 rest3 =>
        try dsimp only at hk
        split at hk
        · obtain ⟨d, rest4, hdm, hk2⟩ := firstParse_some _ _ _ hk
          have hdb := dayAlts_mem _ _ _ hdm
          try dsimp only at hk2
          split at hk2
          · split at hk2
            · rename_i hck
              injection hk2 with h2
              subst h2
              exact ⟨hck.1, hmb.1, hmb.2, hdb.1, hck.2⟩
            · cases hk2
          · cases hk2
        · cases hk
    · cases h
  · cases h

end BillboardTrivia

/-- C3 counterexample: the string "2020-1-5" is not in canonical YYYY-MM-DD
form (its month and day lack the zero padding), yet both validators accept
it and return it unchanged instead of exiting with code 2 — CPython's
strptime month and day groups also match unpadded digits. -/
theorem c3_counterexample_unpadded_date_accepted :
    ChartWeekDump.validate_date "2020-1-5" = Except.ok "2020-1-5" ∧
    ExportChartJson.validate_date "2020-1-5" = Except.ok "2020-1-5" ∧
    specCanonicalYMD "2020-1-5" = false :=
  ⟨rfl, rfl, rfl⟩

/-- C3 amended: every canonical YYYY-MM-DD string is accepted and returned
unchanged by both validators; every other outcome of validation is exit
code 2 (nothing else); and every accepted string denotes a real calendar
date — but the accepted set is slightly broader than canonical YYYY-MM-DD:
a month or day may omit its leading zero. -/
theorem c3_amended_validate_date :
    (∀ s, specCanonicalYMD s = true →
      ChartWeekDump.validate_date s = Except.ok s ∧
      ExportChartJson.validate_date s = Except.ok s) ∧
    (∀ s, ChartWeekDump.validate_date s = Except.ok s ∨
      ChartWeekDump.validate_date s = Except.error 2) ∧
    (∀ s, ExportChartJson.validate_date s = Except.ok s ∨
      ExportChartJson.validate_date s = Except.error 2) ∧
    (∀ s dv, strptimeYMD s = some dv →
      1 ≤ dv.year ∧ 1 ≤ dv.month ∧ dv.month ≤ 12 ∧ 1 ≤ dv.day ∧
        dv.day ≤ daysInMonth dv.year dv.month) := by
  refine ⟨?_, ?_, ?_, ?_⟩
  · intro s hs
    obtain ⟨dv, hdv⟩ := specCanonical_accepted s hs
    constructor
    · unfold ChartWeekDump.validate_date
      rw [hdv]
    · unfold ExportChartJson.validate_date
      rw [hdv]
  · intro s
    unfold ChartWeekDump.validate_date
    cases strptimeYMD s
    · right; rfl
    · left; rfl
  · intro s
    unfold ExportChartJson.validate_date
    cases strptimeYMD s
    · right; rfl
    · left; rfl
  · intro s dv h
    exact strptimeYMD_real_date s dv h

/-- Witness for C3 (amended): the canonical leap-day string "2024-02-29" is
returned unchanged by both validators. -/
theorem c3_amended_validate_date_witness :
    ChartWeekDump.validate_date "2024-02-29" = Except.ok "2024-02-29" ∧
    ExportChartJson.validate_date "2024-02-29" = Except.ok "2024-02-29" :=
  c3_amended_validate_date.1 "2024-02-29" (by rfl)
